import Mathlib

/-!
Verification development for the SonarQube orchestration service
(`sonar_api.py`). The Python program is shallowly embedded: JSON values
become the inductive `Json`, the Python-level dynamic operations used by the
code (`dict.get`, `in`, truthiness, `float(...)`, subscripting, iteration)
become total Lean functions returning `Except String _` where the Python
operation can raise, and the external collaborators (HTTP backend, git,
filesystem, scanner subprocess, archive extraction) become oracles supplied
in a `ScanEnv`. The `/scan` handler becomes the pure function `scan`
returning the HTTP response together with a trace of side effects.
-/

/-- A decimal number `mant / 10 ^ exp`, the exact values Python's `float`
takes on the program's inputs (metric values are decimal strings). -/
structure DecFloat where
  mant : Int
  exp : Nat
  deriving DecidableEq

/-- A JSON value as manipulated by the Python code. Python `None` is `null`;
integers and floats are kept apart because the report coerces fields with
`int(...)` versus `float(...)`; objects are ordered association lists, since
the code relies on `OrderedDict` field order. -/
inductive Json where
  | null : Json
  | bool : Bool → Json
  | int : Int → Json
  | float : DecFloat → Json
  | str : String → Json
  | arr : List Json → Json
  | obj : List (String × Json) → Json

/-- Python truthiness of a JSON value. -/
def Json.truthy : Json → Bool
  | .null => false
  | .bool b => b
  | .int n => n != 0
  | .float q => q.mant != 0
  | .str s => s != ""
  | .arr xs => !xs.isEmpty
  | .obj kvs => !kvs.isEmpty

/-- Whether the value is a Python `dict` (`isinstance(x, dict)`). -/
def Json.isDict : Json → Bool
  | .obj _ => true
  | _ => false

/-- First binding of a key in an association list. -/
def assocFindJ : List (String × Json) → String → Option Json
  | [], _ => none
  | (k, v) :: rest, key => if k == key then some v else assocFindJ rest key

/-- First binding of a key in a string association list (headers, form data). -/
def assocFindS : List (String × String) → String → Option String
  | [], _ => none
  | (k, v) :: rest, key => if k == key then some v else assocFindS rest key

/-- Lookup on an object, `none` for a missing key or a non-object. -/
def jGet (j : Json) (k : String) : Option Json :=
  match j with
  | .obj kvs => assocFindJ kvs k
  | _ => none

/-- `d.get(k, default)` for a receiver known to be a dict. -/
def jGetD (j : Json) (k : String) (d : Json) : Json :=
  (jGet j k).getD d

/-- Python `x.get(k)` on an arbitrary value: `AttributeError` when the
receiver is not a dict, else the value or `None`. -/
def pyGet (j : Json) (k : String) : Except String Json :=
  match j with
  | .obj kvs => .ok ((assocFindJ kvs k).getD .null)
  | _ => .error ("AttributeError: object has no attribute get (key " ++ k ++ ")")

/-- Python `x.get(k, default)` on an arbitrary value. -/
def pyGetD (j : Json) (k : String) (d : Json) : Except String Json :=
  match j with
  | .obj kvs => .ok ((assocFindJ kvs k).getD d)
  | _ => .error ("AttributeError: object has no attribute get (key " ++ k ++ ")")

/-- Whether the first list occurs at the head of the second. -/
def leadsWith : List Char → List Char → Bool
  | [], _ => true
  | _ :: _, [] => false
  | a :: as, b :: bs => a == b && leadsWith as bs

/-- Whether the first list occurs contiguously inside the second. -/
def containsSub : List Char → List Char → Bool
  | n, [] => n.isEmpty
  | n, c :: cs => leadsWith n (c :: cs) || containsSub n cs

/-- Python `needle in hay` on strings. -/
def strContains (needle hay : String) : Bool :=
  containsSub needle.data hay.data

/-- Python `key in x` for a string `key`: key membership for dicts, element
membership for lists, substring test for strings, `TypeError` otherwise. -/
def pyIn (key : String) (j : Json) : Except String Bool :=
  match j with
  | .obj kvs => .ok (kvs.any (fun p => p.1 == key))
  | .arr xs => .ok (xs.any (fun x => match x with | .str s => s == key | _ => false))
  | .str s => .ok (strContains key s)
  | _ => .error "TypeError: argument is not iterable"

/-- Python iteration (`for x in e`): lists yield elements, dicts yield their
keys, strings yield one-character strings, other values raise `TypeError`. -/
def pyIterate (j : Json) : Except String (List Json) :=
  match j with
  | .arr xs => .ok xs
  | .obj kvs => .ok (kvs.map (fun p => Json.str p.1))
  | .str s => .ok (s.data.map (fun c => Json.str (String.singleton c)))
  | _ => .error "TypeError: object is not iterable"

/-- Python `x[k]` for a string key `k`: `KeyError` for a dict without the
key, `TypeError` for non-dicts. -/
def pySubKey (j : Json) (k : String) : Except String Json :=
  match j with
  | .obj kvs =>
    match assocFindJ kvs k with
    | some v => .ok v
    | none => .error ("KeyError: " ++ k)
  | _ => .error "TypeError: value is not subscriptable by a string"

/-- Python `x[0]`: first element of a list or first character of a string;
`IndexError` when empty, `KeyError`/`TypeError` otherwise. -/
def pySub0 (j : Json) : Except String Json :=
  match j with
  | .arr (x :: _) => .ok x
  | .arr [] => .error "IndexError: list index out of range"
  | .str s =>
    match s.data with
    | c :: _ => .ok (Json.str (String.singleton c))
    | [] => .error "IndexError: string index out of range"
  | .obj _ => .error "KeyError: 0"
  | _ => .error "TypeError: value is not subscriptable"

/-- Python `d[k] = v` on an `OrderedDict`: replace the binding in place if
the key exists, else append it at the end. Non-objects are left unchanged
(the code only ever assigns into the assembled report dict). -/
def pySetItem (j : Json) (k : String) (v : Json) : Json :=
  match j with
  | .obj kvs =>
    if kvs.any (fun p => p.1 == k) then
      .obj (kvs.map (fun p => if p.1 == k then (p.1, v) else p))
    else
      .obj (kvs ++ [(k, v)])
  | _ => j

/-- Python `a or b`. -/
def pyOr (a b : Json) : Json :=
  if a.truthy then a else b

/-- Python `str(x)` as used in the handler's f-strings. Exact for strings
(the only case the handler reaches with well-typed requests); a reasonable
rendering otherwise. -/
def pyStr : Json → String
  | .str s => s
  | .int n => toString n
  | .float q => toString q.mant ++ "e-" ++ toString q.exp
  | .bool b => if b then "True" else "False"
  | .null => "None"
  | .arr _ => "[...]"
  | .obj _ => "{...}"

/-- Digit list to a natural number. -/
def digitsVal (cs : List Char) : Nat :=
  cs.foldl (fun a c => a * 10 + (c.toNat - 48)) 0

/-- Split a character list at the first `e`/`E` (exponent marker). -/
def splitAtExp : List Char → (List Char × Option (List Char))
  | [] => ([], none)
  | c :: t =>
    if c = 'e' ∨ c = 'E' then ([], some t)
    else
      let r := splitAtExp t
      (c :: r.1, r.2)

/-- Split a character list at the first `.`. -/
def splitAtDot : List Char → (List Char × Option (List Char))
  | [] => ([], none)
  | c :: t =>
    if c = '.' then ([], some t)
    else
      let r := splitAtDot t
      (c :: r.1, r.2)

/-- Parse an optional exponent part (sign plus digits). -/
def parseExp (cs : List Char) : Option Int :=
  let (sgn, ds) : Int × List Char :=
    match cs with
    | '+' :: t => (1, t)
    | '-' :: t => (-1, t)
    | t => (1, t)
  if ds.isEmpty || !ds.all Char.isDigit then none
  else some (sgn * (digitsVal ds : Int))

/-- Strip leading and trailing whitespace from a character list. -/
def trimChars (cs : List Char) : List Char :=
  ((cs.dropWhile Char.isWhitespace).reverse.dropWhile Char.isWhitespace).reverse

/-- `10 ^ n` as a natural number, by structural recursion. -/
def pow10 : Nat → Nat
  | 0 => 1
  | n + 1 => 10 * pow10 n

/-- Python `float(s)` on a string: optional sign, decimal digits with an
optional fraction and exponent; whitespace is stripped. `none` models the
`ValueError` raised for non-numeric text. -/
def pyFloatOfString (s : String) : Option DecFloat :=
  let cs := trimChars s.data
  let (sgn, cs) : Int × List Char :=
    match cs with
    | '+' :: t => (1, t)
    | '-' :: t => (-1, t)
    | t => (1, t)
  let (mant, expPart) := splitAtExp cs
  let (ipart, fpartOpt) := splitAtDot mant
  let fpart := fpartOpt.getD []
  if !ipart.all Char.isDigit || !fpart.all Char.isDigit then none
  else if ipart.isEmpty && fpart.isEmpty then none
  else
    let base : DecFloat := ⟨sgn * (digitsVal (ipart ++ fpart) : Int), fpart.length⟩
    match expPart with
    | none => some base
    | some e =>
      match parseExp e with
      | none => none
      | some ev =>
        if ev ≥ 0 then some ⟨base.mant * (Int.ofNat (pow10 ev.toNat)), base.exp⟩
        else some ⟨base.mant, base.exp + (-ev).toNat⟩

/-- Python `float(x)`. -/
def pyFloat (j : Json) : Except String DecFloat :=
  match j with
  | .int n => .ok ⟨n, 0⟩
  | .float q => .ok q
  | .bool b => .ok ⟨if b then 1 else 0, 0⟩
  | .str s =>
    match pyFloatOfString s with
    | some q => .ok q
    | none => .error ("could not convert string to float: \x27" ++ s ++ "\x27")
  | .null => .error "float() argument must be a string or a real number, not NoneType"
  | .arr _ => .error "float() argument must be a string or a real number, not list"
  | .obj _ => .error "float() argument must be a string or a real number, not dict"

/-- Python `int(q)` on a float: truncation toward zero. -/
def decTrunc (q : DecFloat) : Int :=
  q.mant.tdiv (Int.ofNat (pow10 q.exp))

/-- `safe_int(val) = int(float(val or 0))` from `get_sonar_report`. -/
def safe_int (val : Json) : Except String Int :=
  match pyFloat (pyOr val (.int 0)) with
  | .ok q => .ok (decTrunc q)
  | .error e => .error e

/-- `safe_float(val) = float(val or 0)` from `get_sonar_report`. -/
def safe_float (val : Json) : Except String DecFloat :=
  pyFloat (pyOr val (.int 0))

/-! ## Backend query adapter (`sonar_api`, `project_exists`) -/

/-- Outcome of one HTTP GET issued by `sonar_api`: a 2xx response with a
JSON body, or any failure (`requests` exception, timeout, non-2xx from
`raise_for_status`, JSON decode error) carrying the exception text. -/
inductive HttpResult where
  | success : Json → HttpResult
  | failure : String → HttpResult

/-- `sonar_api`: returns the response body on success and the dict
`{"error": str(e)}` on any exception — failures become values, the function
never raises. -/
def sonar_api : HttpResult → Json
  | .success body => body
  | .failure msg => .obj [("error", .str msg)]

/-- `project_exists`: `"component" in sonar_api(...)`. -/
def project_exists (r : HttpResult) : Except String Bool :=
  pyIn "component" (sonar_api r)

/-- The five read-only backend sub-queries issued by `get_sonar_report`. -/
inductive Endpoint where
  | componentsShow
  | analysesSearch
  | measuresComponent
  | issuesSearch
  | qualityGateStatus
  deriving DecidableEq

/-! ## Report assembler (`get_sonar_report`) -/

/-- Whether an association key equals a given string key. -/
def keyIsStr (k : Json) (s : String) : Bool :=
  match k with
  | .str t => t == s
  | _ => false

/-- Insertion into the `vals` dict built by the metric comprehension:
replacement for an existing equal string key, append otherwise. -/
def valsInsert (vals : List (Json × Json)) (k v : Json) : List (Json × Json) :=
  match k with
  | .str s =>
    if vals.any (fun p => keyIsStr p.1 s) then
      vals.map (fun p => if keyIsStr p.1 s then (p.1, v) else p)
    else vals ++ [(k, v)]
  | _ => vals ++ [(k, v)]

/-- `vals.get(k)` for a string key: the stored value or `None`. -/
def valsGet (vals : List (Json × Json)) (k : String) : Json :=
  match vals.find? (fun p => keyIsStr p.1 k) with
  | some p => p.2
  | none => .null

/-- The dict comprehension
`{x["metric"]: x.get("value") for x in metrics.get("component", {}).get("measures", [])}`
(the `metrics` argument is already known to be a dict). -/
def metricsVals (metrics : Json) : Except String (List (Json × Json)) :=
  let comp := jGetD metrics "component" (.obj [])
  match pyGetD comp "measures" (.arr []) with
  | .error e => .error e
  | .ok measures =>
    match pyIterate measures with
    | .error e => .error e
    | .ok elems =>
      elems.foldlM (fun acc x =>
        match pySubKey x "metric" with
        | .error e => .error e
        | .ok k =>
          match pyGet x "value" with
          | .error e => .error e
          | .ok v => .ok (valsInsert acc k v)) []

/-- The `metrics_summary` dict literal built from `vals`. -/
def summaryOfVals (vals : List (Json × Json)) : Except String Json := do
  let b ← safe_int (valsGet vals "bugs")
  let vu ← safe_int (valsGet vals "vulnerabilities")
  let cs ← safe_int (valsGet vals "code_smells")
  let dd ← safe_float (valsGet vals "duplicated_lines_density")
  let cov ← safe_float (valsGet vals "coverage")
  let loc ← safe_int (valsGet vals "ncloc")
  let sq ← safe_int (valsGet vals "sqale_index")
  pure (.obj [("bugs", .int b), ("vulnerabilities", .int vu), ("code_smells", .int cs),
    ("duplicated_lines_density", .float dd), ("coverage", .float cov),
    ("lines_of_code", .int loc), ("sqale_index", .int sq)])

/-- The `metrics_summary` section of `get_sonar_report`: empty unless the
metrics result is a dict without an `"error"` key with a truthy value. -/
def metricsSummary (metrics : Json) : Except String Json :=
  if metrics.isDict && !(jGetD metrics "error" .null).truthy then
    match metricsVals metrics with
    | .error e => .error e
    | .ok vals => summaryOfVals vals
  else .ok (.obj [])

/-- One flattened issue record. -/
def issueRec (i : Json) : Except String Json := do
  let k ← pyGet i "key"
  let ty ← pyGet i "type"
  let sev ← pyGet i "severity"
  let msg ← pyGet i "message"
  let comp ← pyGet i "component"
  let ln ← pyGet i "line"
  let eff ← pyGet i "effort"
  pure (.obj [("key", k), ("type", ty), ("severity", sev), ("message", msg),
    ("component", comp), ("line", ln), ("effort_minutes", eff)])

/-- The `issues` section: flattened issue records, in input order. -/
def issuesList (issues : Json) : Except String Json :=
  if issues.isDict && !(jGetD issues "error" .null).truthy then
    match pyIterate (jGetD issues "issues" (.arr [])) with
    | .error e => .error e
    | .ok elems =>
      match elems.mapM issueRec with
      | .error e => .error e
      | .ok recs => .ok (.arr recs)
  else .ok (.arr [])

/-- One quality-gate condition record; `threshold` falls back from
`errorThreshold` to `warningThreshold` via Python `or`. -/
def condRec (c : Json) : Except String Json := do
  let m ← pyGet c "metricKey"
  let av ← pyGet c "actualValue"
  let et ← pyGet c "errorThreshold"
  let wt ← pyGet c "warningThreshold"
  let st ← pyGet c "status"
  pure (.obj [("metric", m), ("actual_value", av), ("threshold", pyOr et wt), ("status", st)])

/-- The `quality_gate_status` section, returned together with the raw
`qgs = quality_gate.get("projectStatus", {})` value, which the `project`
section reads again. -/
def qualityGateSection (quality_gate : Json) : Except String (Json × Json) :=
  if quality_gate.isDict && !(jGetD quality_gate "error" .null).truthy then
    let qgs := jGetD quality_gate "projectStatus" (.obj [])
    match pyGet qgs "status" with
    | .error e => .error e
    | .ok st =>
      match pyGetD qgs "conditions" (.arr []) with
      | .error e => .error e
      | .ok condsRaw =>
        match pyIterate condsRaw with
        | .error e => .error e
        | .ok elems =>
          match elems.mapM condRec with
          | .error e => .error e
          | .ok conds => .ok (.obj [("status", st), ("conditions", .arr conds)], qgs)
  else .ok (.obj [], .obj [])

/-- The `project` section: merged component/analysis/quality-gate data on a
successful component lookup, the raw `project_info` payload otherwise. -/
def projectSection (project_info analyses qgs : Json) : Except String Json :=
  if project_info.isDict && !(jGetD project_info "error" .null).truthy then
    let comp := jGetD project_info "component" (.obj [])
    let anaList :=
      if analyses.isDict && !(jGetD analyses "error" .null).truthy then
        jGetD analyses "analyses" (.arr [])
      else .arr []
    match (if anaList.truthy then pySub0 anaList else .ok (.obj [])) with
    | .error e => .error e
    | .ok ana => do
      let nm ← pyGet comp "name"
      let ky ← pyGet comp "key"
      let aid ← pyGet ana "key"
      let st ← pyGet qgs "status"
      let ad ← pyGet ana "date"
      pure (.obj [("name", nm), ("key", ky), ("analysis_id", aid),
        ("status", st), ("analysis_date", ad)])
  else .ok project_info

/-- `get_sonar_report`, factored over the five already-fetched sub-query
results (each the value returned by `sonar_api`). The sections are built in
source order; the result is the ordered four-field report document, or the
first exception the assembly raises. -/
def get_sonar_report (project_info analyses metrics issues quality_gate : Json) :
    Except String Json :=
  match metricsSummary metrics with
  | .error e => .error e
  | .ok ms =>
    match issuesList issues with
    | .error e => .error e
    | .ok il =>
      match qualityGateSection quality_gate with
      | .error e => .error e
      | .ok (qg, qgs) =>
        match projectSection project_info analyses qgs with
        | .error e => .error e
        | .ok proj =>
          .ok (.obj [("project", proj), ("metrics_summary", ms),
            ("issues", il), ("quality_gate_status", qg)])

/-- `get_sonar_report` against a backend oracle: issues all five sub-queries
and assembles their `sonar_api` results. -/
def get_sonar_reportB (b : Endpoint → HttpResult) : Except String Json :=
  get_sonar_report (sonar_api (b .componentsShow)) (sonar_api (b .analysesSearch))
    (sonar_api (b .measuresComponent)) (sonar_api (b .issuesSearch))
    (sonar_api (b .qualityGateStatus))

/-- Top-level keys of a report document. -/
def objKeys : Json → List String
  | .obj kvs => kvs.map Prod.fst
  | _ => []

/-- Lookup of a top-level key in a report document. -/
def Json.lookupKey (j : Json) (k : String) : Option Json :=
  match j with
  | .obj kvs => assocFindJ kvs k
  | _ => none

/-! ## Project-key resolution (`get_project_key`) -/

/-- `os.path.basename`: the part after the last `/`. -/
def basename (s : String) : String :=
  ((s.splitOn "/").getLast?).getD s

/-- Root part of `os.path.splitext`: drop the extension at the last dot,
unless every character before that dot is itself a dot. -/
def pySplitextRoot (b : String) : String :=
  let cs := b.data
  let lastDot := (List.range cs.length).foldl
    (fun acc i => if cs.get? i = some '.' then some i else acc) none
  match lastDot with
  | none => b
  | some p => if (cs.take p).all (· = '.') then b else String.mk (cs.take p)

/-- Key extracted from a git URL by
`re.search(r'/([^/]+?)(\.git)?$', url)`: the segment after the last slash
with a `.git` suffix stripped (kept when the whole segment is `.git`), and
the fallback constant when the URL has no slash or ends with one. -/
def gitKeyOf (u : String) : String :=
  let parts := u.splitOn "/"
  if parts.length ≤ 1 then "default_git_project"
  else
    match parts.getLast? with
    | some lastSeg =>
      if lastSeg = "" then "default_git_project"
      else if lastSeg.endsWith ".git" && lastSeg.length > 4 then lastSeg.dropRight 4
      else lastSeg
    | none => "default_git_project"

/-- `get_project_key(data, filename=None)`: the explicit `project_key`
value, else the key parsed from `git_url` (a `TypeError` propagates when
`git_url` is not a string), else the filename stem, else `None`. -/
def get_project_key (data : Json) (filename : Option String) :
    Except String (Option Json) :=
  match jGet data "project_key" with
  | some v => .ok (some v)
  | none =>
    match jGet data "git_url" with
    | some (.str u) => .ok (some (.str (gitKeyOf u)))
    | some _ => .error "TypeError: expected string or bytes-like object"
    | none =>
      match filename with
      | some f => .ok (some (.str (pySplitextRoot (basename f))))
      | none => .ok none

/-! ## The `/scan` handler -/

/-- Result of a completed child process (`subprocess.run` with captured
output). -/
structure ProcResult where
  returncode : Int
  stdout : String
  stderr : String

/-- Side effects the handler can perform, recorded in order. The backend is
only ever read (`requests.get`); no mutating effect exists. -/
inductive Effect where
  | backendQuery : String → Effect
  | preexistingRemoved : String → Effect
  | workspaceCreated : String → Effect
  | fileWritten : String → Effect
  | gitCloned : String → String → Effect
  | archiveExtracted : String → Effect
  | scannerInvoked : List String → Effect
  | reportPolled : Nat → Effect
  | slept : Nat → Effect
  | cleanupAttempted : String → Effect
  | workspaceRemoved : String → Effect
  deriving DecidableEq, BEq

/-- Handler state: the effect trace, the `cleanup_dir` local variable
(`none` = unbound, `some none` = bound to Python `None`), and the number of
report polls performed. -/
structure St where
  trace : List Effect
  cleanup : Option (Option String)
  polls : Nat

/-- An HTTP response: status code and JSON body. -/
structure Resp where
  status : Nat
  body : Json

/-- `error_response(message, code, **kwargs)`. -/
def error_response (message : String) (code : Nat) (extras : List (String × Json)) : Resp :=
  ⟨code, .obj (("error", .str message) :: extras)⟩

/-- The credential guard of line 192:
`not header_token or (SONAR_TOKEN and header_token != SONAR_TOKEN)`. -/
def tokenRejected (cfgToken : Option String) (tok : String) : Bool :=
  tok == "" ||
    (match cfgToken with
     | some s => (s != "") && (tok != s)
     | none => false)

/-- `request.get_json(silent=True) or {}`. -/
def dataOf : Option Json → Json
  | none => .obj []
  | some j => if j.truthy then j else .obj []

/-- A `/scan` request: headers, the parts uploaded under the `file` field
(by filename), the form fields, and the parsed JSON body (`none` when the
body is absent or unparsable). -/
structure ScanRequest where
  headers : List (String × String)
  files : List String
  form : List (String × String)
  jsonBody : Option Json

/-- Lines 196-202: the early project-key resolution — the form field in
upload mode, else `get_project_key(data)` with NO filename argument. -/
def resolveKey (req : ScanRequest) : Except String (Option Json) :=
  match req.files with
  | _ :: _ => .ok ((assocFindS req.form "project_key").map Json.str)
  | [] =>
    let data := dataOf req.jsonBody
    if data.isDict then get_project_key data none else .ok none

/-- Scanner argument list for the git-clone mode. -/
def gitScanArgs (dir pk nm tok : String) : List String :=
  ["/opt/sonar-scanner/bin/sonar-scanner",
   "-Dsonar.projectBaseDir=" ++ dir,
   "-Dsonar.projectKey=" ++ pk,
   "-Dsonar.projectName=" ++ nm,
   "-Dsonar.login=" ++ tok]

/-- Scanner argument list for the inline-source mode. -/
def codeScanArgs (dir pk nm fn tok : String) : List String :=
  ["/opt/sonar-scanner/bin/sonar-scanner",
   "-Dsonar.projectBaseDir=" ++ dir,
   "-Dsonar.projectKey=" ++ pk,
   "-Dsonar.projectName=" ++ nm,
   "-Dsonar.sources=" ++ fn,
   "-Dsonar.login=" ++ tok]

/-- Scanner argument list for the archive-upload mode. -/
def uploadScanArgs (dir pk nm tok : String) : List String :=
  ["/opt/sonar-scanner/bin/sonar-scanner",
   "-Dsonar.projectBaseDir=" ++ dir,
   "-Dsonar.projectKey=" ++ pk,
   "-Dsonar.projectName=" ++ nm,
   "-Dsonar.sources=.",
   "-Dsonar.login=" ++ tok]

/-- `prepare_scan(data, header_token)` with the filesystem and git oracles
made explicit. Returns `(scan_args, project_dir, err)` as in the source, or
propagates an exception raised inside the function. -/
def prepare_scan (preexists : String → Bool)
    (clone : String → String → Except String ProcResult)
    (writeFile : String → Except String Unit)
    (data : Json) (header_token : String) (st : St) :
    Except String (Option (List String) × Option String × Option Resp) × St :=
  match get_project_key data none with
  | .error e => (.error e, st)
  | .ok keyOpt =>
    let project_key := keyOpt.getD .null
    let project_name := jGetD data "project_name" .null
    if !project_name.truthy then
      (.ok (none, none, some (error_response "Missing required field: project_name" 400 [])), st)
    else if !project_key.truthy then
      (.ok (none, none, some (error_response "Missing required field: project_key" 400 [])), st)
    else
      match jGet data "git_url" with
      | some gitUrl =>
        let pk := pyStr project_key
        let project_dir := "/tmp/git_project_" ++ pk
        let st1 := if preexists project_dir then
            { st with trace := st.trace ++ [.preexistingRemoved project_dir] }
          else st
        let st2 := { st1 with trace := st1.trace ++ [.workspaceCreated project_dir] }
        match gitUrl with
        | .str u =>
          match clone u project_dir with
          | .error e => (.error e, st2)
          | .ok r =>
            let st3 := { st2 with trace := st2.trace ++ [.gitCloned u project_dir] }
            if r.returncode != 0 then
              (.ok (none, some project_dir, some (error_response
                "Failed to clone git repository" 500
                [("details", .str (if r.stderr != "" then r.stderr else r.stdout))])), st3)
            else
              (.ok (some (gitScanArgs project_dir pk (pyStr project_name) header_token),
                some project_dir, none), st3)
        | _ => (.error "TypeError: expected str, bytes or os.PathLike object", st2)
      | none =>
        match jGet data "code" with
        | some code =>
          let pk := pyStr project_key
          let code_filename := jGetD data "filename" (.str (pk ++ "_source.py"))
          let project_dir := "/tmp/code_project_" ++ pk
          let st1 := if preexists project_dir then
              { st with trace := st.trace ++ [.preexistingRemoved project_dir] }
            else st
          let st2 := { st1 with trace := st1.trace ++ [.workspaceCreated project_dir] }
          match code_filename with
          | .str fn =>
            match code with
            | .str _ =>
              match writeFile (project_dir ++ "/" ++ fn) with
              | .error e => (.error e, st2)
              | .ok _ =>
                let st3 := { st2 with trace := st2.trace ++ [.fileWritten (project_dir ++ "/" ++ fn)] }
                (.ok (some (codeScanArgs project_dir pk (pyStr project_name) fn header_token),
                  some project_dir, none), st3)
            | _ => (.error "TypeError: write() argument must be str", st2)
          | _ => (.error "TypeError: join() argument must be str, not NoneType", st2)
        | none =>
          (.ok (none, none, some (error_response
            "Invalid JSON payload. Expecting \x27git_url\x27 or \x27code\x27." 400 [])), st)

/-- Whether the scanner output contains a completion marker
(`"ANALYSIS SUCCESSFUL"` or `"EXECUTION SUCCESS"`). -/
def markerOk (stdout : String) : Bool :=
  strContains "ANALYSIS SUCCESSFUL" stdout || strContains "EXECUTION SUCCESS" stdout

/-- Line 259: the failure response when neither completion marker appears in
the captured stdout, `none` when the scan is classified a success. The
process exit code plays no part. -/
def failRespOf (r : ProcResult) : Option Resp :=
  if !strContains "ANALYSIS SUCCESSFUL" r.stdout && !strContains "EXECUTION SUCCESS" r.stdout then
    some (error_response "SonarScanner analysis failed." 500
      [("scanner_stdout", .str r.stdout), ("scanner_stderr", .str r.stderr)])
  else none

/-- The string sentinel comparison `project.get("status") != "NONE"`. -/
def isNoneSentinel : Json → Bool
  | .str s => s == "NONE"
  | _ => false

/-- Line 270: the poll-readiness condition
`project.get("analysis_id") and project.get("status") and project.get("status") != "NONE"`,
with Python short-circuiting and the `.get` calls able to raise when
`project` is not a dict. -/
def isReadyCheck (doc : Json) : Except String Bool :=
  match pyGetD doc "project" (.obj []) with
  | .error e => .error e
  | .ok project =>
    match pyGet project "analysis_id" with
    | .error e => .error e
    | .ok aid =>
      if !aid.truthy then .ok false
      else
        match pyGet project "status" with
        | .error e => .error e
        | .ok st1 =>
          if !st1.truthy then .ok false
          else
            match pyGet project "status" with
            | .error e => .error e
            | .ok st2 => .ok (!isNoneSentinel st2)

/-- The polling loop of lines 263-273: the budget is 30 and the interval 2.
The loop variable is the remaining budget `30 - waited` (the loop guard
`waited < 30` is `0 < remaining`; `waited += 2` is `remaining -= 2`); each
iteration fetches one report, breaks on readiness, else sleeps. Returns
`(true, doc)` on readiness, `(false, last)` when the budget runs out, or the
exception a report fetch raised. -/
def pollLoop (reportAt : Nat → Except String Json) :
    Json → Nat → Nat → St → Except String (Bool × Json) × St
  | last, 0, _, st => (.ok (false, last), st)
  | _, 1, i, st =>
    let st1 := { st with trace := st.trace ++ [.reportPolled i], polls := st.polls + 1 }
    match reportAt i with
    | .error e => (.error e, st1)
    | .ok doc =>
      match isReadyCheck doc with
      | .error e => (.error e, st1)
      | .ok true => (.ok (true, doc), st1)
      | .ok false =>
        pollLoop reportAt doc 0 (i + 1)
          { st1 with trace := st1.trace ++ [.slept 2] }
  | _, remaining + 2, i, st =>
    let st1 := { st with trace := st.trace ++ [.reportPolled i], polls := st.polls + 1 }
    match reportAt i with
    | .error e => (.error e, st1)
    | .ok doc =>
      match isReadyCheck doc with
      | .error e => (.error e, st1)
      | .ok true => (.ok (true, doc), st1)
      | .ok false =>
        pollLoop reportAt doc remaining (i + 1)
          { st1 with trace := st1.trace ++ [.slept 2] }

/-- Lines 274-291: turn the poll outcome into the 200 or 202 response,
appending the stderr advisory and, on timeout, the incompleteness warning. -/
def pollAndRespond (reportAt : Nat → Except String Json) (stderr : String)
    (st : St) : Except String Resp × St :=
  match pollLoop reportAt .null 30 0 st with
  | (.error e, st') => (.error e, st')
  | (.ok (true, doc), st') =>
    let d1 := if stderr != "" then pySetItem doc "scanner_stderr_warnings" (.str stderr) else doc
    (.ok ⟨200, d1⟩, st')
  | (.ok (false, doc), st') =>
    let d1 := if stderr != "" then pySetItem doc "scanner_stderr_warnings" (.str stderr) else doc
    let d2 := pySetItem d1 "warning"
      (.str "Analysis is still processing. This report may be incomplete.")
    (.ok ⟨202, d2⟩, st')

/-- Report fetched at poll iteration `i`: `get_sonar_report` over that
iteration's backend responses. -/
def reportAt (pollBackend : Nat → Endpoint → HttpResult) (i : Nat) : Except String Json :=
  get_sonar_reportB (pollBackend i)

/-- Lines 255-291: run the scanner, classify its outcome by the stdout
marker, then poll for the report. -/
def afterScan (scanner : List String → Except String ProcResult)
    (pollBackend : Nat → Endpoint → HttpResult)
    (args : List String) (st : St) : Except String Resp × St :=
  match scanner args with
  | .error e => (.error e, st)
  | .ok r =>
    let st1 := { st with trace := st.trace ++ [.scannerInvoked args] }
    match failRespOf r with
    | some resp => (.ok resp, st1)
    | none => pollAndRespond (reportAt pollBackend) r.stderr st1

/-- The body of the `/scan` handler (the `try` block of lines 185-291),
with every external collaborator an explicit oracle. -/
def scanBody (cfgToken : Option String) (validateBackend : String → HttpResult)
    (preexists : String → Bool)
    (clone : String → String → Except String ProcResult)
    (writeFile : String → Except String Unit)
    (extractZip : Except String Unit)
    (scanner : List String → Except String ProcResult)
    (pollBackend : Nat → Endpoint → HttpResult)
    (req : ScanRequest) (st : St) : Except String Resp × St :=
  match assocFindS req.headers "X-Sonar-Token" with
  | none => (.ok (error_response "Missing required header: X-Sonar-Token" 401 []), st)
  | some header_token =>
    if tokenRejected cfgToken header_token then
      (.ok (error_response "Invalid SonarQube token in header." 401 []), st)
    else
      match resolveKey req with
      | .error e => (.error e, st)
      | .ok keyOpt =>
        let project_key := keyOpt.getD .null
        if !project_key.truthy then
          (.ok (error_response "Missing required field: project_key" 400 []), st)
        else
          let pk := pyStr project_key
          let st1 := { st with trace := st.trace ++ [.backendQuery pk] }
          match project_exists (validateBackend pk) with
          | .error e => (.error e, st1)
          | .ok true =>
            (.ok (error_response ("Project \x27" ++ pk ++
              "\x27 already exists. Please use a different project_key.") 400 []), st1)
          | .ok false =>
            match req.files with
            | f :: rest =>
              match rest with
              | _ :: _ => (.ok (error_response "Only one zip file is allowed." 400 []), st1)
              | [] =>
                if f = "" then
                  (.ok (error_response "No file selected or filename is empty" 400 []), st1)
                else
                  let filename := basename f
                  let project_dir := "/tmp/sonar_file_uploads/" ++ filename ++ "_scan"
                  let st2 := { st1 with
                    trace := st1.trace ++ [Effect.workspaceCreated project_dir],
                    cleanup := some (some project_dir) }
                  let st3 := { st2 with
                    trace := st2.trace ++ [Effect.fileWritten (project_dir ++ "/" ++ filename)] }
                  match extractZip with
                  | .error e => (.error e, st3)
                  | .ok _ =>
                    let st4 := { st3 with trace := st3.trace ++ [.archiveExtracted project_dir] }
                    match assocFindS req.form "project_name" with
                    | none =>
                      (.ok (error_response "Missing required field: project_name" 400 []), st4)
                    | some nm =>
                      if nm = "" then
                        (.ok (error_response "Missing required field: project_name" 400 []), st4)
                      else
                        afterScan scanner pollBackend
                          (uploadScanArgs project_dir pk nm header_token) st4
            | [] =>
              let data := dataOf req.jsonBody
              if !data.isDict then
                (.ok (error_response
                  "Invalid request. Expecting file upload or JSON payload (git_url or code)."
                  400 []), st1)
              else
                match prepare_scan preexists clone writeFile data header_token st1 with
                | (.error e, st') => (.error e, st')
                | (.ok (argsOpt, dirOpt, errOpt), st') =>
                  let st'' := { st' with cleanup := some dirOpt }
                  match errOpt with
                  | some r => (.ok r, st'')
                  | none =>
                    match argsOpt with
                    | none =>
                      (.error "TypeError: expected str, bytes or os.PathLike object, not NoneType",
                        st'')
                    | some args => afterScan scanner pollBackend args st''

/-- The `finally` block of lines 297-302: if `cleanup_dir` is bound, truthy
and the directory exists (it was created during this run), attempt the
removal; a removal failure is swallowed. -/
def finallyCleanup (rmtreeOk : Bool) (st : St) : St :=
  match st.cleanup with
  | some (some p) =>
    if p != "" && st.trace.contains (.workspaceCreated p) then
      let st1 := { st with trace := st.trace ++ [.cleanupAttempted p] }
      if rmtreeOk then { st1 with trace := st1.trace ++ [.workspaceRemoved p] } else st1
    else st
  | _ => st

/-- All external collaborators of the handler. -/
structure ScanEnv where
  serverToken : Option String
  validateBackend : String → HttpResult
  preexists : String → Bool
  clone : String → String → Except String ProcResult
  writeFile : String → Except String Unit
  extractZip : Except String Unit
  scanner : List String → Except String ProcResult
  pollBackend : Nat → Endpoint → HttpResult
  rmtreeOk : Bool

/-- The `/scan` handler: runs the body, maps an uncaught exception to the
generic 500 response (lines 293-296), and always runs the cleanup block. -/
def scan (env : ScanEnv) (req : ScanRequest) : Resp × St :=
  match scanBody env.serverToken env.validateBackend env.preexists env.clone
      env.writeFile env.extractZip env.scanner env.pollBackend req ⟨[], none, 0⟩ with
  | (.ok resp, st) => (resp, finallyCleanup env.rmtreeOk st)
  | (.error e, st) =>
    (error_response "An unexpected server error occurred" 500 [("details", .str e)],
      finallyCleanup env.rmtreeOk st)

/-! ## Concrete fixtures -/

/-- A healthy backend: all five sub-queries succeed with a well-formed
payload. -/
def okBackend : Endpoint → HttpResult
  | .componentsShow => .success (.obj [("component", .obj [("name", .str "Nm"),
      ("key", .str "k"), ("qualifier", .str "TRK")])])
  | .analysesSearch => .success (.obj [("analyses", .arr [.obj [("key", .str "A1"),
      ("date", .str "2024-01-01")]])])
  | .measuresComponent => .success (.obj [("component", .obj [("measures", .arr [
      .obj [("metric", .str "bugs"), ("value", .str "2")],
      .obj [("metric", .str "coverage"), ("value", .str "75.5")]])])])
  | .issuesSearch => .success (.obj [("issues", .arr [.obj [("key", .str "I1"),
      ("type", .str "BUG"), ("severity", .str "MAJOR"), ("message", .str "m"),
      ("component", .str "k:f"), ("line", .int 3), ("effort", .str "5min")]])])
  | .qualityGateStatus => .success (.obj [("projectStatus", .obj [("status", .str "OK"),
      ("conditions", .arr [.obj [("metricKey", .str "coverage"),
        ("actualValue", .str "75.5"), ("errorThreshold", .str "80"),
        ("status", .str "ERROR")]])])])

/-- The `project` section assembled from `okBackend`. -/
def okProject : Json :=
  .obj [("name", .str "Nm"), ("key", .str "k"), ("analysis_id", .str "A1"),
    ("status", .str "OK"), ("analysis_date", .str "2024-01-01")]

/-- The `issues` section assembled from `okBackend`. -/
def okIssues : Json :=
  .arr [.obj [("key", .str "I1"), ("type", .str "BUG"), ("severity", .str "MAJOR"),
    ("message", .str "m"), ("component", .str "k:f"), ("line", .int 3),
    ("effort_minutes", .str "5min")]]

/-- The `quality_gate_status` section assembled from `okBackend`. -/
def okQG : Json :=
  .obj [("status", .str "OK"), ("conditions", .arr [.obj [("metric", .str "coverage"),
    ("actual_value", .str "75.5"), ("threshold", .str "80"), ("status", .str "ERROR")]])]

/-- A baseline environment: no configured reference token, component lookup
finds nothing, filesystem and scanner cooperate, polls fail. -/
def stubEnv : ScanEnv where
  serverToken := none
  validateBackend := fun _ => .success (.obj [])
  preexists := fun _ => false
  clone := fun _ _ => .ok ⟨0, "", ""⟩
  writeFile := fun _ => .ok ()
  extractZip := .ok ()
  scanner := fun _ => .ok ⟨0, "EXECUTION SUCCESS", ""⟩
  pollBackend := fun _ _ => .failure "x"
  rmtreeOk := true

/-- A JSON-mode `/scan` request with a valid header. -/
def jsonScanReq (tok : String) (kvs : List (String × Json)) : ScanRequest :=
  ⟨[("X-Sonar-Token", tok)], [], [], some (.obj kvs)⟩

/-- The spec scenario request:
`{"project_name":"Demo","code":"print(1)","filename":"a.py"}`. -/
def scenarioReq : ScanRequest :=
  jsonScanReq "t" [("project_name", .str "Demo"), ("code", .str "print(1)"),
    ("filename", .str "a.py")]

/-- An inline-source request with an explicit key. -/
def codeReq : ScanRequest :=
  jsonScanReq "t" [("project_name", .str "N"), ("project_key", .str "k"),
    ("code", .str "x")]

/-- Environment whose first poll returns a metrics payload carrying a
non-numeric measure value. -/
def badPollMetrics : Json :=
  .obj [("component", .obj [("measures", .arr [.obj [("metric", .str "coverage"),
    ("value", .str "bad")]])])]

def badPollEnv : ScanEnv :=
  { stubEnv with pollBackend := (fun _ e =>
      match e with
      | .measuresComponent => .success badPollMetrics
      | _ => okBackend e) }

/-- Environment where the backend says the project already exists. -/
def dupEnv : ScanEnv :=
  { stubEnv with validateBackend := fun _ => .success (.obj [("component", .obj [("key", .str "k")])]) }

/-- Environment whose scanner exits 0 but prints no completion marker. -/
def noMarkerEnv : ScanEnv :=
  { stubEnv with scanner := fun _ => .ok ⟨0, "done", "warn"⟩ }

/-- Environment where writing the inline source file raises. -/
def leakEnv : ScanEnv :=
  { stubEnv with writeFile := fun _ => .error "OSError: no space left on device" }

/-- Environment with a healthy poll backend. -/
def readyEnv : ScanEnv :=
  { stubEnv with pollBackend := fun _ => okBackend }

/-- A request populating both the `git_url` and the `code` variants. -/
def bothReq : ScanRequest :=
  jsonScanReq "t" [("project_name", .str "N"), ("project_key", .str "k"),
    ("git_url", .str "http://h/r.git"), ("code", .str "x")]

/-- An upload request carrying two file parts. -/
def twoFileReq : ScanRequest :=
  ⟨[("X-Sonar-Token", "t")], ["a.zip", "b.zip"],
   [("project_key", "k"), ("project_name", "N")], none⟩

/-- Environment whose component lookup at validation time fails with the
given transport error while the poll backend is healthy. -/
def failOpenEnv (m : String) : ScanEnv :=
  { stubEnv with
      validateBackend := (fun _ => .failure m),
      pollBackend := (fun _ => okBackend) }

/-- A metrics payload whose measures omit `coverage`. -/
def noCoverageMetrics : Json :=
  .obj [("component", .obj [("measures", .arr [.obj [("metric", .str "bugs"),
    ("value", .str "3")]])])]

/-- The summary assembled from `noCoverageMetrics`. -/
def noCoverageSummary : Json :=
  .obj [("bugs", .int 3), ("vulnerabilities", .int 0), ("code_smells", .int 0),
    ("duplicated_lines_density", .float ⟨0, 0⟩), ("coverage", .float ⟨0, 0⟩),
    ("lines_of_code", .int 0), ("sqale_index", .int 0)]

/-- The summary assembled from an empty `vals` dict. -/
def zeroSummary : Json :=
  .obj [("bugs", .int 0), ("vulnerabilities", .int 0), ("code_smells", .int 0),
    ("duplicated_lines_density", .float ⟨0, 0⟩), ("coverage", .float ⟨0, 0⟩),
    ("lines_of_code", .int 0), ("sqale_index", .int 0)]

/-! ## Claims -/

/-- C1 (amended): whenever `get_sonar_report` returns a document — i.e. the
assembly raises no exception — that document has exactly the four top-level
keys `project`, `metrics_summary`, `issues`, `quality_gate_status`, in that
fixed order, regardless of the five sub-query results. -/
theorem get_sonar_report_ok_keys (p a m i q doc : Json)
    (h : get_sonar_report p a m i q = .ok doc) :
    objKeys doc = ["project", "metrics_summary", "issues", "quality_gate_status"] := by
  unfold get_sonar_report at h
  repeat' split at h
  all_goals cases h
  all_goals rfl

/-- Witness for `get_sonar_report_ok_keys` at a concrete input. -/
theorem get_sonar_report_ok_keys_witness :
    get_sonar_report .null .null .null .null .null =
      .ok (.obj [("project", .null), ("metrics_summary", .obj []), ("issues", .arr []),
        ("quality_gate_status", .obj [])]) ∧
    objKeys (.obj [("project", .null), ("metrics_summary", .obj []), ("issues", .arr []),
        ("quality_gate_status", .obj [])]) =
      ["project", "metrics_summary", "issues", "quality_gate_status"] :=
  ⟨rfl, get_sonar_report_ok_keys .null .null .null .null .null _ rfl⟩

/-- C1 (counterexample): with four benign results and a SUCCESSFUL metrics
payload whose `coverage` measure carries the non-numeric value `"abc"`,
`get_sonar_report` raises a `ValueError` instead of returning any document,
so no four-key document is produced for this combination of sub-query
results. -/
theorem get_sonar_report_nonnumeric_raises :
    get_sonar_report .null .null
      (.obj [("component", .obj [("measures", .arr [.obj [("metric", .str "coverage"),
        ("value", .str "abc")]])])])
      .null .null = .error "could not convert string to float: \x27abc\x27" := rfl

/-- Each run of the polling loop performs at most `(remaining + 1) / 2` more
report fetches (15 from the fresh budget 30). -/
theorem pollLoop_polls_le (reportAt : Nat → Except String Json) (last : Json)
    (remaining i : Nat) (st : St) :
    (pollLoop reportAt last remaining i st).2.polls ≤ st.polls + (remaining + 1) / 2 := by
  induction last, remaining, i, st using pollLoop.induct reportAt
  all_goals rw [pollLoop]
  all_goals simp_all
  all_goals omega

/-- C2 (amended): after a successful scanner outcome the handler's polling
stage always terminates, fetching at most 15 reports (30 time-units at the
fixed 2-unit interval), and ends in exactly one of three ways: a 200 Ready
response, a 202 TimedOut response, or a propagated exception (which the
outer handler turns into a 500) when a report assembly raises. -/
theorem scan_poll_terminates_bounded (reportAt : Nat → Except String Json)
    (stderr : String) (st : St) :
    (pollAndRespond reportAt stderr st).2.polls ≤ st.polls + 15 ∧
    ((∃ doc, (pollAndRespond reportAt stderr st).1 = .ok ⟨200, doc⟩) ∨
     (∃ doc, (pollAndRespond reportAt stderr st).1 = .ok ⟨202, doc⟩) ∨
     (∃ e, (pollAndRespond reportAt stderr st).1 = .error e)) := by
  have hb := pollLoop_polls_le reportAt .null 30 0 st
  norm_num at hb
  constructor
  · unfold pollAndRespond
    split
    all_goals rename_i heq
    all_goals rw [heq] at hb
    all_goals simpa using hb
  · unfold pollAndRespond
    split
    · exact Or.inr (Or.inr ⟨_, rfl⟩)
    · exact Or.inl ⟨_, rfl⟩
    · exact Or.inr (Or.inl ⟨_, rfl⟩)

/-- C2 (counterexample): a valid request with a resolvable, not-yet-existing
key and a successful scanner outcome for which `/scan` ends neither Ready
(200) nor TimedOut (202): the first poll's metrics payload carries a
non-numeric value, the report assembly raises, and the handler answers 500. -/
theorem scan_poll_assembly_error_gives_500 :
    project_exists (badPollEnv.validateBackend "k") = .ok false ∧
    (scan badPollEnv codeReq).1 = error_response "An unexpected server error occurred" 500
      [("details", .str "could not convert string to float: \x27bad\x27")] ∧
    (scan badPollEnv codeReq).1.status = 500 :=
  ⟨rfl, rfl, rfl⟩

/-- C3 (amended): `get_project_key` resolves the key in priority order —
explicit `project_key` field, else last path segment of `git_url` with a
trailing `.git` stripped, else the filename stem — but the `/scan` handler
invokes it WITHOUT a filename argument (`resolveKey` passes `none`), so the
filename fallback is unreachable from `/scan` and a request supplying only a
`filename` resolves no key. -/
theorem project_key_resolution_amended (v : Json) (rest : List (String × Json))
    (u f tok : String) (fo : Option String) (kvs : List (String × Json)) :
    get_project_key (.obj (("project_key", v) :: rest)) fo = .ok (some v) ∧
    get_project_key (.obj [("git_url", .str u)]) fo = .ok (some (.str (gitKeyOf u))) ∧
    get_project_key (.obj []) (some f) = .ok (some (.str (pySplitextRoot (basename f)))) ∧
    resolveKey (jsonScanReq tok kvs) = get_project_key (dataOf (some (.obj kvs))) none := by
  refine ⟨?_, rfl, rfl, ?_⟩
  · simp [get_project_key, jGet, assocFindJ]
  · rcases kvs with _ | ⟨p, t⟩ <;> rfl

/-- C3 (counterexample): the spec scenario request
`{"project_name":"Demo","code":"print(1)","filename":"a.py"}` with a valid
header and no existing project does NOT resolve the key `"a"` and succeed:
`/scan` rejects it with 400 `Missing required field: project_key`, creating
no workspace and invoking no scanner (empty effect trace). -/
theorem scan_filename_only_returns_400 :
    scan stubEnv scenarioReq =
      (error_response "Missing required field: project_key" 400 [], ⟨[], none, 0⟩) := rfl

/-- C4: whenever a JSON `/scan` request passes the credential checks,
resolves a truthy project key and `project_exists` reports it already
present, the handler answers exactly the 400 `DuplicateProject` error and
its entire effect trace is the single read-only `components/show` lookup —
no workspace creation, no scanner invocation, no write, no clone, and no
backend mutation (the model has no mutating effect; `sonar_api` only
performs GETs). -/
theorem scan_duplicate_rejected_no_effects (env : ScanEnv) (tok : String)
    (kvs : List (String × Json)) (kj : Json)
    (h1 : tokenRejected env.serverToken tok = false)
    (h2 : resolveKey (jsonScanReq tok kvs) = .ok (some kj))
    (h3 : kj.truthy = true)
    (h4 : project_exists (env.validateBackend (pyStr kj)) = .ok true) :
    scan env (jsonScanReq tok kvs) =
      (error_response ("Project \x27" ++ pyStr kj ++
        "\x27 already exists. Please use a different project_key.") 400 [],
       ⟨[.backendQuery (pyStr kj)], none, 0⟩) := by
  unfold scan scanBody
  simp only [jsonScanReq] at h2 ⊢
  simp [assocFindS, h1, h2, h3, h4, finallyCleanup]

/-- Witness for `scan_duplicate_rejected_no_effects` at a concrete request
and environment. -/
theorem scan_duplicate_rejected_no_effects_witness :
    tokenRejected dupEnv.serverToken "t" = false ∧
    resolveKey (jsonScanReq "t" [("project_name", .str "N"), ("project_key", .str "k"),
      ("code", .str "x")]) = .ok (some (.str "k")) ∧
    (Json.str "k").truthy = true ∧
    project_exists (dupEnv.validateBackend "k") = .ok true ∧
    scan dupEnv (jsonScanReq "t" [("project_name", .str "N"), ("project_key", .str "k"),
      ("code", .str "x")]) =
      (error_response ("Project \x27" ++ pyStr (.str "k") ++
        "\x27 already exists. Please use a different project_key.") 400 [],
       ⟨[.backendQuery (pyStr (.str "k"))], none, 0⟩) :=
  ⟨rfl, rfl, rfl, rfl,
   scan_duplicate_rejected_no_effects dupEnv "t" _ (.str "k") rfl rfl rfl rfl⟩

/-- A backend on which only the metrics sub-query fails. -/
def metricsFailBackend (m : String) : Endpoint → HttpResult
  | .measuresComponent => .failure m
  | e => okBackend e

/-- C5: backend sub-query failures are carried as values, never thrown —
`sonar_api` is total and maps any failure to the `error` object — and a
failing sub-query never prevents the others from being consumed or the
report from being assembled: with all five sub-queries failing the document
is still assembled from the five independent results, and with only the
metrics sub-query failing the other four sections are populated exactly as
when it succeeds. -/
theorem subquery_failures_as_values (f : Endpoint → String) (m : String)
    (h1 : f Endpoint.componentsShow ≠ "") (h3 : f Endpoint.measuresComponent ≠ "")
    (h4 : f Endpoint.issuesSearch ≠ "") (h5 : f Endpoint.qualityGateStatus ≠ "")
    (hm : m ≠ "") :
    (∀ s, sonar_api (.failure s) = .obj [("error", .str s)]) ∧
    get_sonar_reportB (fun e => .failure (f e)) =
      .ok (.obj [("project", .obj [("error", .str (f Endpoint.componentsShow))]),
        ("metrics_summary", .obj []), ("issues", .arr []),
        ("quality_gate_status", .obj [])]) ∧
    get_sonar_reportB (metricsFailBackend m) =
      .ok (.obj [("project", okProject), ("metrics_summary", .obj []),
        ("issues", okIssues), ("quality_gate_status", okQG)]) := by
  have hms : ∀ x : String, x ≠ "" →
      metricsSummary (.obj [("error", .str x)]) = .ok (.obj []) := by
    intro x hx
    simp [metricsSummary, jGetD, jGet, assocFindJ, Json.truthy, Json.isDict,
      bne_iff_ne, hx]
  refine ⟨fun s => rfl, ?_, ?_⟩
  · have his : issuesList (.obj [("error", .str (f Endpoint.issuesSearch))]) = .ok (.arr []) := by
      simp [issuesList, jGetD, jGet, assocFindJ, Json.truthy, Json.isDict, bne_iff_ne, h4]
    have hqg : qualityGateSection (.obj [("error", .str (f Endpoint.qualityGateStatus))]) =
        .ok (.obj [], .obj []) := by
      simp [qualityGateSection, jGetD, jGet, assocFindJ, Json.truthy, Json.isDict,
        bne_iff_ne, h5]
    have hpr : projectSection (.obj [("error", .str (f Endpoint.componentsShow))])
        (.obj [("error", .str (f Endpoint.analysesSearch))]) (.obj []) =
        .ok (.obj [("error", .str (f Endpoint.componentsShow))]) := by
      simp [projectSection, jGetD, jGet, assocFindJ, Json.truthy, Json.isDict,
        bne_iff_ne, h1]
    unfold get_sonar_reportB get_sonar_report sonar_api
    rw [hms _ h3, his, hqg]
    dsimp only
    rw [hpr]
  · unfold get_sonar_reportB get_sonar_report sonar_api metricsFailBackend
    rw [hms _ hm]
    rfl

/-- Witness for `subquery_failures_as_values` at concrete failure
messages. -/
theorem subquery_failures_as_values_witness :
    ("boom" : String) ≠ "" ∧
    ((∀ s, sonar_api (.failure s) = .obj [("error", .str s)]) ∧
     get_sonar_reportB (fun _ => .failure "boom") =
       .ok (.obj [("project", .obj [("error", .str "boom")]),
         ("metrics_summary", .obj []), ("issues", .arr []),
         ("quality_gate_status", .obj [])]) ∧
     get_sonar_reportB (metricsFailBackend "boom") =
       .ok (.obj [("project", okProject), ("metrics_summary", .obj []),
         ("issues", okIssues), ("quality_gate_status", okQG)])) :=
  ⟨by decide,
   subquery_failures_as_values (fun _ => "boom") "boom"
     (by decide) (by decide) (by decide) (by decide) (by decide)⟩

/-- C6 (amended): a metric value that is missing (or stored as `None`)
coerces to `0.0` — in particular a metrics response without `coverage`
yields `metrics_summary.coverage == 0.0` — but the coercion never raises
only for missing or falsy values; a present non-numeric truthy value makes
the summary construction raise instead (see the counterexample). -/
theorem metrics_missing_coverage_zero (vals : List (Json × Json)) (doc : Json)
    (hmiss : valsGet vals "coverage" = .null)
    (hok : summaryOfVals vals = .ok doc) :
    doc.lookupKey "coverage" = some (.float ⟨0, 0⟩) ∧
    metricsSummary noCoverageMetrics = .ok noCoverageSummary := by
  refine ⟨?_, rfl⟩
  simp only [summaryOfVals, bind, Except.bind] at hok
  rw [hmiss] at hok
  have hsf : safe_float Json.null = .ok ⟨0, 0⟩ := rfl
  rw [hsf] at hok
  dsimp only at hok
  repeat' split at hok
  all_goals cases hok
  all_goals rfl

/-- Witness for `metrics_missing_coverage_zero` at the empty `vals` dict. -/
theorem metrics_missing_coverage_zero_witness :
    valsGet [] "coverage" = .null ∧
    summaryOfVals [] = .ok zeroSummary ∧
    zeroSummary.lookupKey "coverage" = some (.float ⟨0, 0⟩) ∧
    metricsSummary noCoverageMetrics = .ok noCoverageSummary :=
  ⟨rfl, rfl, (metrics_missing_coverage_zero [] zeroSummary rfl rfl).1,
   (metrics_missing_coverage_zero [] zeroSummary rfl rfl).2⟩

/-- C6 (counterexample): a present but non-numeric metric value does not
coerce to `0` — it makes the metrics summary raise a `ValueError` (which
escapes `get_sonar_report`), contradicting "coerces to 0 rather than
producing an error". -/
theorem metrics_nonnumeric_value_raises :
    metricsSummary (.obj [("component", .obj [("measures", .arr [.obj [
      ("metric", .str "coverage"), ("value", .str "oops")]])])]) =
      .error "could not convert string to float: \x27oops\x27" := rfl

/-- C7: the scanner outcome is classified a success exactly when a
completion marker appears in the captured stdout; the process exit code
plays no role; and on a missing marker the handler returns 500 with both
captured streams attached (shown concretely for a zero-exit-code run). -/
theorem scanner_marker_classification (rc rc2 : Int) (s e : String) :
    failRespOf ⟨rc, s, e⟩ =
      (if markerOk s then none
       else some (error_response "SonarScanner analysis failed." 500
         [("scanner_stdout", .str s), ("scanner_stderr", .str e)])) ∧
    failRespOf ⟨rc, s, e⟩ = failRespOf ⟨rc2, s, e⟩ ∧
    scan noMarkerEnv codeReq =
      (error_response "SonarScanner analysis failed." 500
        [("scanner_stdout", .str "done"), ("scanner_stderr", .str "warn")],
       ⟨[.backendQuery "k", .workspaceCreated "/tmp/code_project_k",
         .fileWritten "/tmp/code_project_k/k_source.py",
         .scannerInvoked (codeScanArgs "/tmp/code_project_k" "k" "N" "k_source.py" "t"),
         .cleanupAttempted "/tmp/code_project_k",
         .workspaceRemoved "/tmp/code_project_k"],
        some (some "/tmp/code_project_k"), 0⟩) := by
  refine ⟨?_, rfl, rfl⟩
  cases hA : strContains "ANALYSIS SUCCESSFUL" s <;>
    cases hB : strContains "EXECUTION SUCCESS" s <;>
    simp [failRespOf, markerOk, hA, hB]

/-- C8 (amended): a JSON request populating NO source-mode variant is
rejected 400, and more than one `file` part in upload mode is rejected 400;
but a JSON request populating BOTH `git_url` and `code` is not rejected —
`git_url` silently takes priority and the request proceeds in remote-clone
mode. -/
theorem source_mode_validation_amended (u c tok : String) (st : St)
    (pre : String → Bool) (cl : String → String → Except String ProcResult)
    (wf : String → Except String Unit) :
    prepare_scan pre cl wf (.obj [("project_name", .str "N"), ("project_key", .str "k")])
      tok st =
      (.ok (none, none, some (error_response
        "Invalid JSON payload. Expecting \x27git_url\x27 or \x27code\x27." 400 [])), st) ∧
    prepare_scan (fun _ => false) (fun _ _ => .ok ⟨0, "", ""⟩) wf
      (.obj [("project_name", .str "N"), ("project_key", .str "k"),
        ("git_url", .str u), ("code", .str c)]) tok st =
      (.ok (some (gitScanArgs "/tmp/git_project_k" "k" "N" tok),
        some "/tmp/git_project_k", none),
       { st with trace := st.trace ++ [.workspaceCreated "/tmp/git_project_k",
         .gitCloned u "/tmp/git_project_k"] }) ∧
    scan stubEnv twoFileReq =
      (error_response "Only one zip file is allowed." 400 [],
       ⟨[.backendQuery "k"], none, 0⟩) := by
  refine ⟨rfl, ?_, rfl⟩
  simp [prepare_scan, get_project_key, jGet, jGetD, assocFindJ, pyStr,
    gitScanArgs, Json.truthy]

/-- C8 (counterexample): a request in which both the `git_url` and the
`code` variants are populated is NOT rejected with a validation error: the
handler clones the repository, runs the scanner and answers 200. -/
theorem scan_both_variants_proceeds :
    (scan readyEnv bothReq).1.status = 200 ∧
    (scan readyEnv bothReq).2.trace.contains
      (.gitCloned "http://h/r.git" "/tmp/git_project_k") = true ∧
    (scan readyEnv bothReq).2.trace.contains
      (.scannerInvoked (gitScanArgs "/tmp/git_project_k" "k" "N" "t")) = true :=
  ⟨rfl, rfl, rfl⟩

/-- C9 (amended): whenever the handler's `cleanup_dir` variable holds the
created workspace path at a terminal outcome, removal is attempted (and on a
successful run it happens), and a failure of the removal itself never
changes the response; but the deletion is driven by that variable, so an
exception inside workspace preparation after the directory is created and
before the handler receives the path leaves the directory undeleted (see
the counterexample). -/
theorem cleanup_amended (env : ScanEnv) (req : ScanRequest) (b1 b2 : Bool)
    (tr : List Effect) (p : String) (po : Nat)
    (hp : (p != "") = true) (hc : tr.contains (Effect.workspaceCreated p) = true) :
    (scan { env with rmtreeOk := b1 } req).1 = (scan { env with rmtreeOk := b2 } req).1 ∧
    finallyCleanup true ⟨tr, some (some p), po⟩ =
      ⟨tr ++ [.cleanupAttempted p, .workspaceRemoved p], some (some p), po⟩ ∧
    finallyCleanup false ⟨tr, some (some p), po⟩ =
      ⟨tr ++ [.cleanupAttempted p], some (some p), po⟩ ∧
    (scan readyEnv codeReq).2.trace.contains (.cleanupAttempted "/tmp/code_project_k") = true ∧
    (scan readyEnv codeReq).2.trace.contains (.workspaceRemoved "/tmp/code_project_k") = true := by
  refine ⟨?_, ?_, ?_, rfl, rfl⟩
  · unfold scan
    dsimp only
    rcases hsb : scanBody env.serverToken env.validateBackend env.preexists env.clone
      env.writeFile env.extractZip env.scanner env.pollBackend req ⟨[], none, 0⟩ with ⟨r, st'⟩
    rcases r with e | resp <;> rfl
  · unfold finallyCleanup
    simp [hp, hc, List.append_assoc]
  · unfold finallyCleanup
    simp [hp, hc]

/-- Witness for `cleanup_amended` at a concrete environment, request and
handler state. -/
theorem cleanup_amended_witness :
    (("/d" : String) != "") = true ∧
    ([Effect.workspaceCreated "/d"].contains (Effect.workspaceCreated "/d") = true) ∧
    ((scan { stubEnv with rmtreeOk := true } codeReq).1 =
      (scan { stubEnv with rmtreeOk := false } codeReq).1 ∧
     finallyCleanup true ⟨[Effect.workspaceCreated "/d"], some (some "/d"), 0⟩ =
       ⟨[Effect.workspaceCreated "/d"] ++ [.cleanupAttempted "/d", .workspaceRemoved "/d"],
        some (some "/d"), 0⟩ ∧
     finallyCleanup false ⟨[Effect.workspaceCreated "/d"], some (some "/d"), 0⟩ =
       ⟨[Effect.workspaceCreated "/d"] ++ [.cleanupAttempted "/d"], some (some "/d"), 0⟩ ∧
     (scan readyEnv codeReq).2.trace.contains (.cleanupAttempted "/tmp/code_project_k") = true ∧
     (scan readyEnv codeReq).2.trace.contains (.workspaceRemoved "/tmp/code_project_k") = true) :=
  ⟨rfl, rfl,
   cleanup_amended stubEnv codeReq true false [Effect.workspaceCreated "/d"] "/d" 0 rfl rfl⟩

/-- C9 (counterexample): when the write of the inline source file raises
after the workspace directory was created, the handler's `cleanup_dir`
variable is never bound, the `finally` block skips removal, and the created
directory survives the terminal 500 outcome — no deletion is attempted. -/
theorem scan_write_failure_leaks_workspace :
    (scan leakEnv codeReq).1 = error_response "An unexpected server error occurred" 500
      [("details", .str "OSError: no space left on device")] ∧
    (scan leakEnv codeReq).2.trace =
      [.backendQuery "k", .workspaceCreated "/tmp/code_project_k"] ∧
    (scan leakEnv codeReq).2.trace.contains (.cleanupAttempted "/tmp/code_project_k") = false ∧
    (scan leakEnv codeReq).2.trace.contains (.workspaceRemoved "/tmp/code_project_k") = false :=
  ⟨rfl, rfl, rfl, rfl⟩

/-- C10: `project_exists` is true exactly when the component-lookup response
object carries a `"component"` key, and any failed lookup yields the
`error` object without that key, so `project_exists` is false — the
duplicate check is fail-open: with the validation backend unreachable,
`/scan` passes the duplicate check, creates the workspace, invokes the
scanner and answers 200. -/
theorem project_exists_fail_open (kvs : List (String × Json)) (m : String) :
    project_exists (.success (.obj kvs)) = .ok (kvs.any (fun p => p.1 == "component")) ∧
    project_exists (.failure m) = .ok false ∧
    (scan (failOpenEnv m) codeReq).1.status = 200 ∧
    (scan (failOpenEnv m) codeReq).2.trace.contains
      (.workspaceCreated "/tmp/code_project_k") = true ∧
    (scan (failOpenEnv m) codeReq).2.trace.contains
      (.scannerInvoked (codeScanArgs "/tmp/code_project_k" "k" "N" "k_source.py" "t")) = true :=
  ⟨rfl, rfl, rfl, rfl, rfl⟩
